import Mathlib

/-!
Shallow embedding of src/main.py (liteyt), a PyQt YouTube search client.
Search payloads are modelled as an inductive JSON-like value type, the list
widget and application state as explicit data, Python exceptions as
`Except String`, and the two external effects (subprocess spawn, process
poll) as explicit outcome parameters.  Text is modelled over ASCII: the
program's digit tests and the strptime digit classes are taken as the ASCII
digits 0-9.
-/

/-- Mapping / sequence / string payload values, covering the shapes the
program inspects in the innertube search response. -/
inductive JVal where
  | str (s : String)
  | arr (xs : List JVal)
  | obj (fields : List (String × JVal))
  deriving Repr

/-- Dictionary lookup; a non-dict has no keys. -/
def JVal.find : JVal → String → Option JVal
  | .obj fs, k => fs.lookup k
  | _, _ => none

/-- Python `k in d` as the program uses it (its receivers are dicts; a
non-dict receiver is modelled as not containing the key). -/
def JVal.hasKey (v : JVal) (k : String) : Bool := (v.find k).isSome

/-- Python subscription `d[k]`; a missing key or a non-dict receiver raises
(KeyError / TypeError), modelled as `Except.error` (message text is a
stand-in for the Python exception string). -/
def getKey (v : JVal) (k : String) : Except String JVal :=
  match v.find k with
  | some x => Except.ok x
  | none => Except.error ("KeyError: " ++ k)

/-- Python `xs[0]` on the payload. -/
def index0 : JVal → Except String JVal
  | .arr (x :: _) => Except.ok x
  | .arr [] => Except.error "list index out of range"
  | _ => Except.error "TypeError: not indexable"

/-- Python `xs[-1]` on the payload. -/
def indexLast : JVal → Except String JVal
  | .arr xs =>
    match xs.getLast? with
    | some x => Except.ok x
    | none => Except.error "list index out of range"
  | _ => Except.error "TypeError: not indexable"

/-- Python iteration `for item in results`; the program expects a list. -/
def asArr : JVal → Except String (List JVal)
  | .arr xs => Except.ok xs
  | _ => Except.error "TypeError: not iterable"

/-- Leaf string extraction; the payload fields the program reads here are
string leaves. -/
def asStr : JVal → Except String String
  | .str s => Except.ok s
  | _ => Except.error "TypeError: not a string"

/-- ASCII digit test (codes 48-57); models Python isdigit / the strptime
digit class on the ASCII texts the program handles. -/
def isDigitCode (c : Char) : Bool := 48 ≤ c.toNat && c.toNat ≤ 57

/-- Numeric value of an ASCII digit character. -/
def digitVal (c : Char) : Nat := c.toNat - 48

/-- Round a/b to the nearest integer, ties to even.  This is the rounding of
the one-decimal rendering `f"{x:.1f}"` in format_views: the Python source
takes a float division detour whose correctly rounded decimal result this
models exactly away from half-way points; the detour can only perturb the
final tenth digit at representation boundaries, which affects neither the
band a value falls in nor the monotonicity of the numeric prefix. -/
def rte (a b : Nat) : Nat :=
  if 2 * (a % b) < b then a / b
  else if b < 2 * (a % b) then a / b + 1
  else if a / b % 2 = 0 then a / b else a / b + 1

/-- Render a count of tenths as a one-decimal string. -/
def tenthsStr (t : Nat) : String := toString (t / 10) ++ "." ++ toString (t % 10)

/-- format_views (lines 128-134): band by magnitude, render one decimal with
an M / K suffix, or the literal integer below 1000. -/
def format_views (views : Nat) : String :=
  if views ≥ 1000000 then tenthsStr (rte (views * 10) 1000000) ++ "M views"
  else if views ≥ 1000 then tenthsStr (rte (views * 10) 1000) ++ "K views"
  else toString views ++ " views"

/-- Alternatives of the CPython strptime month class, regex
1[0-2]|0[1-9]|[1-9], in preference order; each hit is (value, rest). -/
def monthAlts : List Char → List (Nat × List Char)
  | c1 :: c2 :: rest =>
    (if c1.toNat = 49 && 48 ≤ c2.toNat && c2.toNat ≤ 50 then
      [(10 + digitVal c2, rest)] else []) ++
    (if c1.toNat = 48 && 49 ≤ c2.toNat && c2.toNat ≤ 57 then
      [(digitVal c2, rest)] else []) ++
    (if 49 ≤ c1.toNat && c1.toNat ≤ 57 then [(digitVal c1, c2 :: rest)] else [])
  | [c1] => if 49 ≤ c1.toNat && c1.toNat ≤ 57 then [(digitVal c1, [])] else []
  | [] => []

/-- Alternatives of the CPython strptime day class, regex
3[01]|[12]\d|0[1-9]|[1-9], in preference order. -/
def dayAlts : List Char → List (Nat × List Char)
  | c1 :: c2 :: rest =>
    (if c1.toNat = 51 && (c2.toNat = 48 || c2.toNat = 49) then
      [(30 + digitVal c2, rest)] else []) ++
    (if (c1.toNat = 49 || c1.toNat = 50) && 48 ≤ c2.toNat && c2.toNat ≤ 57 then
      [(10 * digitVal c1 + digitVal c2, rest)] else []) ++
    (if c1.toNat = 48 && 49 ≤ c2.toNat && c2.toNat ≤ 57 then
      [(digitVal c2, rest)] else []) ++
    (if 49 ≤ c1.toNat && c1.toNat ≤ 57 then [(digitVal c1, c2 :: rest)] else [])
  | [c1] => if 49 ≤ c1.toNat && c1.toNat ≤ 57 then [(digitVal c1, [])] else []
  | [] => []

/-- Leftmost match of the %m-%d tail of the strptime pattern against cs,
with backtracking in alternative-preference order (the regex engine returns
the first full-pattern match; remaining input is checked afterwards). -/
def matchMD (cs : List Char) : Option (Nat × Nat × List Char) :=
  (monthAlts cs).findSome? fun md =>
    match md.2 with
    | c :: r2 =>
      if c.toNat = 45 then (dayAlts r2).head?.map fun dd => (md.1, dd.1, dd.2)
      else none
    | [] => none

/-- Proleptic Gregorian leap-year rule, as in datetime. -/
def isLeap (y : Nat) : Bool := y % 4 = 0 && (y % 100 ≠ 0 || y % 400 = 0)

/-- Days in a month, as checked by the datetime constructor. -/
def daysInMonth (y m : Nat) : Nat :=
  if m = 2 then (if isLeap y then 29 else 28)
  else if m = 4 || m = 6 || m = 9 || m = 11 then 30
  else 31

/-- datetime(y, m, d) constructor validity (MINYEAR = 1, MAXYEAR ≥ 9999). -/
def validDate (y m d : Nat) : Bool :=
  1 ≤ y && y ≤ 9999 && 1 ≤ m && m ≤ 12 && 1 ≤ d && d ≤ daysInMonth y m

/-- CPython datetime.strptime with format "%Y-%m-%d": the compiled regex is
four digits, a literal hyphen, the month class, a literal hyphen, the day
class; after the leftmost match, strptime separately rejects unconverted
trailing data, and the datetime constructor rejects invalid dates. -/
def strptimeYmd (s : String) : Option (Nat × Nat × Nat) :=
  match s.data with
  | y1 :: y2 :: y3 :: y4 :: c :: rest =>
    if isDigitCode y1 && isDigitCode y2 && isDigitCode y3 && isDigitCode y4
       && c.toNat = 45 then
      match matchMD rest with
      | some (m, d, []) =>
        let y := 1000 * digitVal y1 + 100 * digitVal y2 + 10 * digitVal y3 + digitVal y4
        if validDate y m d then some (y, m, d) else none
      | _ => none
    else none
  | _ => none

/-- Abbreviated month names of strftime %b (C locale). -/
def monthAbbrev (m : Nat) : String :=
  if m = 1 then "Jan" else if m = 2 then "Feb" else if m = 3 then "Mar"
  else if m = 4 then "Apr" else if m = 5 then "May" else if m = 6 then "Jun"
  else if m = 7 then "Jul" else if m = 8 then "Aug" else if m = 9 then "Sep"
  else if m = 10 then "Oct" else if m = 11 then "Nov" else "Dec"

/-- Two-digit zero-padded rendering (strftime %d). -/
def pad2 (n : Nat) : String := if n < 10 then "0" ++ toString n else toString n

/-- datetime.strftime "%b %d, %Y" (glibc renders %Y without padding). -/
def renderDate (y m d : Nat) : String :=
  monthAbbrev m ++ " " ++ pad2 d ++ ", " ++ toString y

/-- format_date (lines 136-142): strptime the fixed pattern, render on
success, pass the raw string through on any parse failure. -/
def format_date (date_str : String) : String :=
  match strptimeYmd date_str with
  | some (y, m, d) => renderDate y m d
  | none => date_str

/-- The digit characters of s joined in order (line 187). -/
def stripNonDigits (s : String) : String := String.mk (s.data.filter isDigitCode)

/-- int() on a nonempty all-digit string. -/
def digitsToNat (s : String) : Nat := s.data.foldl (fun a c => 10 * a + digitVal c) 0

/-- Lines 183-189 of perform_search: view count from the view text; empty
text and digit-free text give 0. -/
def parseViews (view_text : String) : Nat :=
  if view_text = "" then 0
  else
    let t := stripNonDigits view_text
    if t = "" then 0 else digitsToNat t

/-- video.get("viewCountText", \x7b\x7d).get("simpleText", "0") (line 184);
a non-dict viewCountText raises at the second .get. -/
def viewTextOf (video : JVal) : Except String String :=
  match video.find "viewCountText" with
  | none => Except.ok "0"
  | some (.obj fs) =>
    match fs.lookup "simpleText" with
    | none => Except.ok "0"
    | some v => asStr v
  | some _ => Except.error "AttributeError: get"

/-- video.get("publishedTimeText", \x7b\x7d).get("simpleText", "Unknown date")
(line 191). -/
def dateTextOf (video : JVal) : Except String String :=
  match video.find "publishedTimeText" with
  | none => Except.ok "Unknown date"
  | some (.obj fs) =>
    match fs.lookup "simpleText" with
    | none => Except.ok "Unknown date"
    | some v => asStr v
  | some _ => Except.error "AttributeError: get"

/-- One stored search result (the dict appended to video_data, line 194). -/
structure VideoRecord where
  title : String
  author : String
  video_id : String
  views : Nat
  publish_date : String
  thumbnail_url : String
  deriving Repr, DecidableEq

/-- Field extraction for one videoRenderer value (lines 178-192), in source
order; any failed access raises out to the outer except. -/
def extractVideo (video : JVal) : Except String VideoRecord := do
  let titleRuns ← getKey (← getKey video "title") "runs"
  let title ← asStr (← getKey (← index0 titleRuns) "text")
  let ownerRuns ← getKey (← getKey video "ownerText") "runs"
  let author ← asStr (← getKey (← index0 ownerRuns) "text")
  let video_id ← asStr (← getKey video "videoId")
  let view_text ← viewTextOf video
  let publish_date ← dateTextOf video
  let thumbs ← getKey (← getKey video "thumbnail") "thumbnails"
  let thumbnail_url ← asStr (← getKey (← indexLast thumbs) "url")
  pure { title := title, author := author, video_id := video_id,
         views := parseViews view_text, publish_date := publish_date,
         thumbnail_url := thumbnail_url }

/-- One row of the results QListWidget: a rendered video row (the strings
handed to VideoItemWidget, lines 204-210) or a plain error string row. -/
inductive Entry where
  | videoRow (title author views publish_date thumbnail_url : String)
  | errorRow (msg : String)
  deriving Repr, DecidableEq

/-- Whether a row is an error string row. -/
def Entry.isError : Entry → Bool
  | .errorRow _ => true
  | _ => false

/-- Rendered row for a stored record (lines 204-218). -/
def renderEntry (r : VideoRecord) : Entry :=
  .videoRow r.title r.author (format_views r.views) (format_date r.publish_date)
    r.thumbnail_url

/-- Application state: the list widget rows, the stored records, the tracked
player handle, window visibility / activation, and the searching page flag. -/
structure AppState where
  results_list : List Entry
  video_data : List VideoRecord
  mpv_process : Option Nat
  windowVisible : Bool
  windowActive : Bool
  searching : Bool
  deriving Repr, DecidableEq

/-- State at window construction (lines 66-126). -/
def initState : AppState :=
  { results_list := [], video_data := [], mpv_process := none,
    windowVisible := true, windowActive := false, searching := false }

/-- Line 172 guard: 'contents' in data and 'twoColumnSearchResultsRenderer'
in data['contents'], with Python short-circuiting. -/
def pathGuard (data : JVal) : Bool :=
  match data.find "contents" with
  | some c => c.hasKey "twoColumnSearchResultsRenderer"
  | none => false

/-- Line 173 navigation to the item list (after the guard held). -/
def deepPath (data : JVal) : Except String (List JVal) := do
  let c ← getKey data "contents"
  let t ← getKey c "twoColumnSearchResultsRenderer"
  let p ← getKey t "primaryContents"
  let sl ← getKey p "sectionListRenderer"
  let cs ← getKey sl "contents"
  let first ← index0 cs
  let isr ← getKey first "itemSectionRenderer"
  let inner ← getKey isr "contents"
  asArr inner

/-- Line 221: one error row for a caught exception. -/
def appendError (s : AppState) (e : String) : AppState :=
  { s with results_list := s.results_list ++ [Entry.errorRow ("Error: " ++ e)] }

/-- Loop of lines 175-218: entries without the videoRenderer key are
skipped; a raised extraction aborts the loop into the outer except, after
the rows already produced. -/
def processItems (s : AppState) : List JVal → AppState
  | [] => s
  | item :: rest =>
    match item.find "videoRenderer" with
    | some video =>
      match extractVideo video with
      | .ok r =>
        processItems
          { s with video_data := s.video_data ++ [r],
                   results_list := s.results_list ++ [renderEntry r] } rest
      | .error e => appendError s e
    | none => processItems s rest

/-- perform_search (lines 164-223) for a completed fetch outcome: clear both
lists, guard the first two path keys (a false guard skips silently),
navigate the fixed path, project the items; any exception becomes one error
row; finally show_main (searching := false). -/
def perform_search (s : AppState) (fetched : Except String JVal) : AppState :=
  let s0 : AppState := { s with results_list := [], video_data := [] }
  let s1 :=
    match fetched with
    | .error e => appendError s0 e
    | .ok data =>
      if pathGuard data then
        match deepPath data with
        | .ok items => processItems s0 items
        | .error e => appendError s0 e
      else s0
  { s1 with searching := false }

/-- open_video (lines 232-242).  index is the clicked row position;
spawnResult models subprocess.Popen(["mpv", url]) (ok: a process handle,
error: the raised exception).  Besides the next state, the attempted spawn
command (program, sole argument) is returned, none when no spawn was
attempted. -/
def open_video (s : AppState) (index : Int) (spawnResult : Except String Nat) :
    AppState × Option (String × String) :=
  if 0 ≤ index ∧ index < (s.video_data.length : Int) then
    let r := s.video_data.getD index.toNat
      { title := "", author := "", video_id := "", views := 0,
        publish_date := "", thumbnail_url := "" }
    let url := "https://www.youtube.com/watch?v=" ++ r.video_id
    match spawnResult with
    | .ok h => ({ s with mpv_process := some h, windowVisible := false }, some ("mpv", url))
    | .error e =>
      ({ s with results_list :=
           s.results_list ++ [Entry.errorRow ("Error opening mpv: " ++ e)] },
       some ("mpv", url))
  else (s, none)

/-- check_mpv_status (lines 156-162); exited models poll() is not None, read
only when a handle is tracked. -/
def check_mpv_status (s : AppState) (exited : Bool) : AppState :=
  match s.mpv_process with
  | some _ =>
    if exited then
      { s with mpv_process := none, windowVisible := true, windowActive := true }
    else s
  | none => s

/-- The state-changing operations of the application. -/
inductive Op where
  | search (fetched : Except String JVal)
  | openVideo (index : Int) (spawnResult : Except String Nat)
  | tick (exited : Bool)

/-- One UI-loop step. -/
def step (s : AppState) : Op → AppState
  | .search f => perform_search s f
  | .openVideo i sp => (open_video s i sp).1
  | .tick e => check_mpv_status s e

/-- video_data mirrors the first video_data.length rows of results_list in
order; every further row is an error row. -/
def mirrors (s : AppState) : Bool :=
  decide (s.results_list.take s.video_data.length = s.video_data.map renderEntry)
  && (s.results_list.drop s.video_data.length).all Entry.isError

/-- A payload wrapping the given item list at the fixed nested path. -/
def mkPayload (items : List JVal) : JVal :=
  .obj [("contents", .obj [("twoColumnSearchResultsRenderer", .obj
    [("primaryContents", .obj [("sectionListRenderer", .obj
      [("contents", .arr [.obj [("itemSectionRenderer", .obj
        [("contents", .arr items)])]])])])])])]

/-- The mock videoRenderer value of the worked example. -/
def mockVideo : JVal := JVal.obj [
  ("title", JVal.obj [("runs", JVal.arr [JVal.obj [("text", JVal.str "Lofi Beats")]])]),
  ("ownerText", JVal.obj [("runs", JVal.arr [JVal.obj [("text", JVal.str "Chill Records")]])]),
  ("videoId", JVal.str "abc123"),
  ("viewCountText", JVal.obj [("simpleText", JVal.str "1,234,567 views")]),
  ("publishedTimeText", JVal.obj [("simpleText", JVal.str "2021-05-03")]),
  ("thumbnail", JVal.obj [("thumbnails", JVal.arr
    [JVal.obj [("url", JVal.str "low.jpg")], JVal.obj [("url", JVal.str "high.jpg")]])])]

/-- The mock payload entry wrapping mockVideo. -/
def mockItem : JVal := JVal.obj [("videoRenderer", mockVideo)]

/-- Views value computed for a video dict (lines 183-189). -/
def viewsOf (video : JVal) : Except String Nat :=
  (viewTextOf video).map parseViews

/-- Monotonicity of ties-to-even rounding by 1000 in the numerator. -/
theorem rte_mono_1000 (a b : Nat) (h : a ≤ b) : rte a 1000 ≤ rte b 1000 := by
  unfold rte
  split_ifs <;> omega

/-- Monotonicity of ties-to-even rounding by 1000000 in the numerator. -/
theorem rte_mono_1000000 (a b : Nat) (h : a ≤ b) : rte a 1000000 ≤ rte b 1000000 := by
  unfold rte
  split_ifs <;> omega

/-- C3: format_views falls into exactly one of three bands (literal below
1000, one-decimal K below 1000000, one-decimal M above), and the numeric
prefix (in tenths, rte of the scaled value) is monotonically non-decreasing
in v within each band. -/
theorem C3_format_views_bands (v v1 v2 : Nat) :
    (v < 1000 → format_views v = toString v ++ " views") ∧
    (1000 ≤ v → v < 1000000 → format_views v = tenthsStr (rte (v * 10) 1000) ++ "K views") ∧
    (1000000 ≤ v → format_views v = tenthsStr (rte (v * 10) 1000000) ++ "M views") ∧
    (v1 ≤ v2 → v2 < 1000 → v1 ≤ v2) ∧
    (1000 ≤ v1 → v2 < 1000000 → v1 ≤ v2 → rte (v1 * 10) 1000 ≤ rte (v2 * 10) 1000) ∧
    (1000000 ≤ v1 → v1 ≤ v2 → rte (v1 * 10) 1000000 ≤ rte (v2 * 10) 1000000) := by
  refine ⟨fun h => ?_, fun h1 h2 => ?_, fun h => ?_, fun h _ => h,
    fun _ _ h => rte_mono_1000 _ _ (Nat.mul_le_mul_right 10 h),
    fun _ h => rte_mono_1000000 _ _ (Nat.mul_le_mul_right 10 h)⟩
  · unfold format_views
    rw [if_neg (by omega), if_neg (by omega)]
  · unfold format_views
    rw [if_neg (by omega), if_pos (by omega)]
  · unfold format_views
    rw [if_pos (by omega)]

/-- Witness for C3 at concrete inputs in each band. -/
theorem C3_format_views_bands_witness :
    format_views 500 = toString 500 ++ " views" ∧
    format_views 2500 = tenthsStr (rte 25000 1000) ++ "K views" ∧
    format_views 1234567 = tenthsStr (rte 12345670 1000000) ++ "M views" ∧
    rte (2000 * 10) 1000 ≤ rte (3000 * 10) 1000 :=
  ⟨(C3_format_views_bands 500 0 0).1 (by omega),
   (C3_format_views_bands 2500 0 0).2.1 (by omega) (by omega),
   (C3_format_views_bands 1234567 0 0).2.2.1 (by omega),
   (C3_format_views_bands 0 2000 3000).2.2.2.2.1 (by omega) (by omega) (by omega)⟩

/-- C5: view-count extraction maps an absent viewCountText field to 0, maps
digit-free strings to 0, otherwise parses the stripped digit string, and
the non-digit stripping is idempotent. -/
theorem C5_view_extraction (video : JVal) (s : String) :
    (video.find "viewCountText" = none → viewsOf video = Except.ok 0) ∧
    ((∀ c ∈ s.data, isDigitCode c = false) → parseViews s = 0) ∧
    (stripNonDigits s ≠ "" → parseViews s = digitsToNat (stripNonDigits s)) ∧
    stripNonDigits (stripNonDigits s) = stripNonDigits s := by
  refine ⟨fun h => ?_, fun h => ?_, fun h => ?_, ?_⟩
  · unfold viewsOf viewTextOf
    rw [h]
    rfl
  · by_cases he : s = ""
    · simp [parseViews, he]
    · have hstrip : stripNonDigits s = "" := by
        unfold stripNonDigits
        have : s.data.filter isDigitCode = [] := by
          rw [List.filter_eq_nil_iff]
          intro c hc
          simp [h c hc]
        rw [this]
      simp [parseViews, he, hstrip]
  · have hs : s ≠ "" := by
      intro he
      apply h
      rw [he]
      rfl
    simp [parseViews, hs, h]
  · unfold stripNonDigits
    simp [List.filter_filter]

/-- Witness for C5 at concrete inputs. -/
theorem C5_view_extraction_witness :
    viewsOf (JVal.obj []) = Except.ok 0 ∧
    parseViews "no digits here" = 0 ∧
    parseViews "1,234 views" = digitsToNat (stripNonDigits "1,234 views") ∧
    stripNonDigits (stripNonDigits "a1b2") = stripNonDigits "a1b2" :=
  ⟨(C5_view_extraction (JVal.obj []) "").1 rfl,
   (C5_view_extraction (JVal.obj []) "no digits here").2.1 (by decide),
   (C5_view_extraction (JVal.obj []) "1,234 views").2.2.1 (by decide),
   (C5_view_extraction (JVal.obj []) "a1b2").2.2.2⟩

/-- The record the worked example expects mockItem to project to. -/
def lofiRecord : VideoRecord :=
  { title := "Lofi Beats", author := "Chill Records", video_id := "abc123",
    views := 1234567, publish_date := "2021-05-03", thumbnail_url := "high.jpg" }

/-- C6: the mock payload with the single Lofi Beats entry projects to
exactly one stored record and one rendered row, views rendered 1.2M,
date rendered May 03, 2021, thumbnail the last variant high.jpg. -/
theorem C6_mock_projection :
    perform_search initState (Except.ok (mkPayload [mockItem])) =
      { initState with
          results_list := [Entry.videoRow "Lofi Beats" "Chill Records" "1.2M views"
            "May 03, 2021" "high.jpg"],
          video_data := [lofiRecord] } := by
  rfl

/-- C7: a selection position below 0 or at or beyond the stored record
count is a no-op: no spawn is attempted (no URL built, no process started),
and the state — window visibility included — is unchanged. -/
theorem C7_out_of_bounds (s : AppState) (index : Int)
    (spawnResult : Except String Nat)
    (h : index < 0 ∨ (s.video_data.length : Int) ≤ index) :
    open_video s index spawnResult = (s, none) := by
  unfold open_video
  rw [if_neg (by omega)]

/-- Witness for C7 at position -1 and at position = length. -/
theorem C7_out_of_bounds_witness :
    open_video initState (-1) (Except.ok 0) = (initState, none) ∧
    open_video initState 0 (Except.ok 0) = (initState, none) :=
  ⟨C7_out_of_bounds initState (-1) (Except.ok 0) (Or.inl (by decide)),
   C7_out_of_bounds initState 0 (Except.ok 0) (Or.inr (by decide))⟩

/-- The default record of List.getD in open_video (never selected when the
index is in bounds). -/
def blankRecord : VideoRecord :=
  { title := "", author := "", video_id := "", views := 0,
    publish_date := "", thumbnail_url := "" }

/-- C8: on an in-bounds selection the launcher builds the watch URL by
concatenating the fixed base with the record identifier and spawns mpv with
that URL as sole argument; a successful spawn stores the handle and hides
the window; a failed spawn appends exactly one error row and leaves every
other field — window visibility included — unchanged. -/
theorem C8_in_bounds_launch (s : AppState) (index : Int) (hnd : Nat) (e : String)
    (h0 : 0 ≤ index) (h1 : index < (s.video_data.length : Int)) :
    open_video s index (Except.ok hnd) =
      ({ s with mpv_process := some hnd, windowVisible := false },
       some ("mpv", "https://www.youtube.com/watch?v=" ++
         (s.video_data.getD index.toNat blankRecord).video_id)) ∧
    open_video s index (Except.error e) =
      ({ s with results_list :=
           s.results_list ++ [Entry.errorRow ("Error opening mpv: " ++ e)] },
       some ("mpv", "https://www.youtube.com/watch?v=" ++
         (s.video_data.getD index.toNat blankRecord).video_id)) := by
  constructor <;>
    · unfold open_video blankRecord
      rw [if_pos ⟨h0, h1⟩]

/-- Witness for C8 on a one-record state. -/
theorem C8_in_bounds_launch_witness :
    open_video { initState with video_data := [lofiRecord] } 0 (Except.ok 3) =
      ({ initState with
           video_data := [lofiRecord], mpv_process := some 3, windowVisible := false },
       some ("mpv", "https://www.youtube.com/watch?v=" ++
         (({ initState with video_data := [lofiRecord] } :
           AppState).video_data.getD 0 blankRecord).video_id)) :=
  (C8_in_bounds_launch { initState with video_data := [lofiRecord] } 0 3 ""
    (by decide) (by decide)).1

/-- C9: a liveness tick with a tracked handle and an exited process clears
the handle, shows the window and activates it; a tick with no tracked
handle, or with the tracked process still running, changes nothing. -/
theorem C9_tick_behavior (s : AppState) (exited : Bool) :
    (∀ h, s.mpv_process = some h → exited = true →
      check_mpv_status s exited =
        { s with mpv_process := none, windowVisible := true, windowActive := true }) ∧
    (s.mpv_process = none → check_mpv_status s exited = s) ∧
    (exited = false → check_mpv_status s exited = s) := by
  refine ⟨fun h hm he => ?_, fun hm => ?_, fun he => ?_⟩
  · subst he
    unfold check_mpv_status
    rw [hm]
    simp
  · unfold check_mpv_status
    rw [hm]
  · subst he
    unfold check_mpv_status
    cases s.mpv_process <;> simp

/-- Witness for C9 on concrete states. -/
theorem C9_tick_behavior_witness :
    check_mpv_status { initState with mpv_process := some 5, windowVisible := false } true =
      { initState with mpv_process := none, windowVisible := true, windowActive := true } ∧
    check_mpv_status initState true = initState ∧
    check_mpv_status { initState with mpv_process := some 5 } false =
      { initState with mpv_process := some 5 } :=
  ⟨(C9_tick_behavior { initState with mpv_process := some 5, windowVisible := false }
      true).1 5 rfl rfl,
   (C9_tick_behavior initState true).2.1 rfl,
   (C9_tick_behavior { initState with mpv_process := some 5 } false).2.2 rfl⟩

/-- Whether a payload entry bears the video discriminant key. -/
def hasVR (item : JVal) : Bool := (item.find "videoRenderer").isSome

/-- Whether an entry either lacks the discriminant or extracts cleanly. -/
def vrExtractOk (item : JVal) : Bool :=
  match item.find "videoRenderer" with
  | some v => (extractVideo v).toOption.isSome
  | none => true

/-- The in-order projection of the video entries of an item list. -/
def extractRecs (items : List JVal) : List VideoRecord :=
  items.filterMap fun item =>
    match item.find "videoRenderer" with
    | some v => (extractVideo v).toOption
    | none => none

/-- A video entry accepted by vrExtractOk extracts to some record. -/
theorem vrOk_extract (item : JVal) (v : JVal)
    (hv : item.find "videoRenderer" = some v)
    (hitem : vrExtractOk item = true) : ∃ r, extractVideo v = Except.ok r := by
  simp only [vrExtractOk, hv] at hitem
  cases he : extractVideo v with
  | ok r => exact ⟨r, rfl⟩
  | error e =>
    rw [he] at hitem
    simp [Except.toOption] at hitem

/-- Unfolding of the projection loop when every video entry extracts
cleanly: records and rendered rows are appended pairwise in order. -/
theorem processItems_ok (items : List JVal) : ∀ s : AppState,
    (∀ item ∈ items, vrExtractOk item = true) →
    processItems s items =
      { s with video_data := s.video_data ++ extractRecs items,
               results_list := s.results_list ++ (extractRecs items).map renderEntry } := by
  induction items with
  | nil =>
    intro s _
    simp [processItems, extractRecs]
  | cons item rest ih =>
    intro s h
    have hitem : vrExtractOk item = true := h item (List.mem_cons_self item rest)
    have hrest : ∀ it ∈ rest, vrExtractOk it = true :=
      fun it hit => h it (List.mem_cons_of_mem item hit)
    cases hv : item.find "videoRenderer" with
    | none =>
      simp only [processItems, hv]
      rw [ih s hrest]
      simp [extractRecs, List.filterMap_cons, hv]
    | some v =>
      obtain ⟨r, hr⟩ := vrOk_extract item v hv hitem
      simp only [processItems, hv, hr]
      rw [ih _ hrest]
      simp [extractRecs, List.filterMap_cons, hv, hr, Except.toOption]

/-- When every video entry extracts cleanly, the projection has one record
per discriminant-bearing entry. -/
theorem extractRecs_length (items : List JVal)
    (h : ∀ item ∈ items, vrExtractOk item = true) :
    (extractRecs items).length = items.countP hasVR := by
  induction items with
  | nil => rfl
  | cons item rest ih =>
    have hitem : vrExtractOk item = true := h item (List.mem_cons_self item rest)
    have hrest : ∀ it ∈ rest, vrExtractOk it = true :=
      fun it hit => h it (List.mem_cons_of_mem item hit)
    cases hv : item.find "videoRenderer" with
    | none =>
      have h1 : extractRecs (item :: rest) = extractRecs rest := by
        simp [extractRecs, List.filterMap_cons, hv]
      rw [h1, ih hrest]
      simp [List.countP_cons, hasVR, hv]
    | some v =>
      obtain ⟨r, hr⟩ := vrOk_extract item v hv hitem
      have h1 : extractRecs (item :: rest) = r :: extractRecs rest := by
        simp [extractRecs, List.filterMap_cons, hv, hr, Except.toOption]
      rw [h1]
      simp [List.countP_cons, hasVR, hv, ih hrest]

/-- C1: for a payload whose path holds an interleaving of video and
non-video entries, with each video entry well-formed, the search stores
exactly the in-order projection of the video entries, renders exactly those
rows (so no error row), and the record count equals the count of
discriminant-bearing entries. -/
theorem C1_projector (s : AppState) (items : List JVal)
    (h : ∀ item ∈ items, vrExtractOk item = true) :
    perform_search s (Except.ok (mkPayload items)) =
      { s with
          results_list := (extractRecs items).map renderEntry,
          video_data := extractRecs items,
          searching := false } ∧
    (extractRecs items).length = items.countP hasVR := by
  refine ⟨?_, extractRecs_length items h⟩
  have hg : pathGuard (mkPayload items) = true := rfl
  have hd : deepPath (mkPayload items) = Except.ok items := rfl
  simp only [perform_search, hg, hd, if_true]
  rw [processItems_ok items _ h]
  simp

/-- Witness item list for C1: one video entry between two non-video ones. -/
def witnessItems : List JVal :=
  [JVal.obj [("shelfRenderer", JVal.str "ad")], mockItem, JVal.str "noise"]

/-- Witness for C1 on a concrete interleaved item list. -/
theorem C1_projector_witness :
    perform_search initState (Except.ok (mkPayload witnessItems)) =
      { initState with
          results_list := (extractRecs witnessItems).map renderEntry,
          video_data := extractRecs witnessItems,
          searching := false } ∧
    (extractRecs witnessItems).length = witnessItems.countP hasVR :=
  C1_projector initState witnessItems (by decide)

/-- Counterexample to C2: for a payload in which the expected nested result
path is missing entirely (the empty dict misses even its first component),
the dispatched search yields NO error entry at all — the line-172 guard is
false and the body is skipped silently — refuting "exactly one error
entry"; the lists stay empty and the UI does return to idle. -/
theorem C2_counterexample :
    (perform_search initState (Except.ok (JVal.obj []))).results_list = [] ∧
    (perform_search initState (Except.ok (JVal.obj []))).video_data = [] ∧
    (perform_search initState (Except.ok (JVal.obj []))).searching = false :=
  ⟨rfl, rfl, rfl⟩

/-- C2 as amended: a payload whose path is missing at its first two
components is skipped silently (no error entry, empty lists); a payload
with those two components present but the path broken deeper yields exactly
one error entry with an otherwise empty result list and empty record
sequence; a fetch failure likewise yields exactly one error entry; the UI
returns to idle in every case. -/
theorem C2_amended_dispatch (s : AppState) (data : JVal) (e e2 : String) :
    (pathGuard data = false →
      perform_search s (Except.ok data) =
        { s with results_list := [], video_data := [], searching := false }) ∧
    (pathGuard data = true → deepPath data = Except.error e →
      perform_search s (Except.ok data) =
        { s with
            results_list := [Entry.errorRow ("Error: " ++ e)],
            video_data := [],
            searching := false }) ∧
    (perform_search s (Except.error e2) =
      { s with
          results_list := [Entry.errorRow ("Error: " ++ e2)],
          video_data := [],
          searching := false }) := by
  refine ⟨fun hg => ?_, fun hg hd => ?_, ?_⟩
  · simp [perform_search, hg]
  · simp [perform_search, hg, hd, appendError]
  · simp [perform_search, appendError]

/-- A payload whose first two path components are present but whose deeper
path is missing. -/
def shallowPayload : JVal :=
  JVal.obj [("contents", JVal.obj [("twoColumnSearchResultsRenderer", JVal.obj [])])]

/-- Witness for the amended C2 on concrete payloads. -/
theorem C2_amended_dispatch_witness :
    perform_search initState (Except.ok (JVal.str "woops")) =
      { initState with results_list := [], video_data := [], searching := false } ∧
    perform_search initState (Except.ok shallowPayload) =
      { initState with
          results_list := [Entry.errorRow ("Error: " ++ "KeyError: primaryContents")],
          video_data := [],
          searching := false } :=
  ⟨(C2_amended_dispatch initState (JVal.str "woops") "" "").1 rfl,
   (C2_amended_dispatch initState shallowPayload "KeyError: primaryContents" "").2.1
     rfl rfl⟩

/-- mirrors reads only the two list fields. -/
theorem mirrors_fields (t s : AppState)
    (hr : t.results_list = s.results_list) (hv : t.video_data = s.video_data) :
    mirrors t = mirrors s := by
  unfold mirrors
  rw [hr, hv]

/-- A state whose rows are exactly the rendered records mirrors. -/
theorem exact_mirrors (s : AppState)
    (h : s.results_list = s.video_data.map renderEntry) : mirrors s = true := by
  unfold mirrors
  rw [h]
  have hlen : (s.video_data.map renderEntry).length = s.video_data.length :=
    List.length_map _ _
  rw [← hlen, List.take_length, List.drop_length]
  simp

/-- Under mirrors, there are at least as many rows as stored records. -/
theorem mirrors_length_le (s : AppState) (h : mirrors s = true) :
    s.video_data.length ≤ s.results_list.length := by
  unfold mirrors at h
  simp only [Bool.and_eq_true, decide_eq_true_eq] at h
  have := congrArg List.length h.1
  simp [List.length_take] at this
  omega

/-- mirrors survives appending one error row at the end. -/
theorem mirrors_append_error (s : AppState) (msg : String) (h : mirrors s = true) :
    mirrors { s with results_list := s.results_list ++ [Entry.errorRow msg] } = true := by
  have hlen := mirrors_length_le s h
  unfold mirrors at h ⊢
  simp only [Bool.and_eq_true, decide_eq_true_eq] at h ⊢
  obtain ⟨h1, h2⟩ := h
  refine ⟨?_, ?_⟩
  · rw [List.take_append_of_le_length hlen, h1]
  · rw [List.drop_append_of_le_length hlen]
    simp [List.all_append, h2, Entry.isError]

/-- mirrors ignores the searching flag. -/
theorem mirrors_searching (t : AppState) (b : Bool) :
    mirrors { t with searching := b } = mirrors t := rfl

/-- The projection loop keeps the mirror invariant from an exact state. -/
theorem processItems_mirrors (items : List JVal) : ∀ s : AppState,
    s.results_list = s.video_data.map renderEntry →
    mirrors (processItems s items) = true := by
  induction items with
  | nil =>
    intro s h
    simpa [processItems] using exact_mirrors s h
  | cons item rest ih =>
    intro s h
    cases hv : item.find "videoRenderer" with
    | none =>
      simp only [processItems, hv]
      exact ih s h
    | some v =>
      cases hr : extractVideo v with
      | ok r =>
        simp only [processItems, hv, hr]
        apply ih
        simp [h]
      | error e =>
        simp only [processItems, hv, hr, appendError]
        exact mirrors_append_error s _ (exact_mirrors s h)

/-- A completed search always leaves a mirroring state. -/
theorem perform_search_mirrors (s : AppState) (f : Except String JVal) :
    mirrors (perform_search s f) = true := by
  have hbase : mirrors { s with results_list := [], video_data := [] } = true :=
    exact_mirrors _ rfl
  simp only [perform_search]
  rw [mirrors_searching]
  cases f with
  | error e =>
    simp only [appendError]
    exact mirrors_append_error _ _ hbase
  | ok data =>
    by_cases hg : pathGuard data
    · simp only [hg, if_true]
      cases hd : deepPath data with
      | ok items => exact processItems_mirrors items _ rfl
      | error e =>
        simp only [appendError]
        exact mirrors_append_error _ _ hbase
    · simp only [hg, if_false]
      exact hbase

/-- C10: every operation — search completion, selection with either spawn
outcome, liveness tick — preserves the mirror invariant (the stored records
are exactly the first rows of the rendered list, in order, and any rows
after them are error rows); and under the invariant, activating a row that
is an error row never launches playback: the launcher bound check is
against video_data, so the activation is a complete no-op. -/
theorem C10_mirror_invariant (s : AppState) (op : Op) (pos : Nat)
    (spawnResult : Except String Nat) (hm : mirrors s = true) :
    mirrors (step s op) = true ∧
    ((s.results_list.getD pos (Entry.errorRow "")).isError = true →
      open_video s (pos : Int) spawnResult = (s, none)) := by
  constructor
  · cases op with
    | search f => exact perform_search_mirrors s f
    | openVideo i sp =>
      show mirrors (open_video s i sp).1 = true
      unfold open_video
      by_cases hin : 0 ≤ i ∧ i < (s.video_data.length : Int)
      · rw [if_pos hin]
        cases sp with
        | ok h =>
          exact (mirrors_fields
            { s with mpv_process := some h, windowVisible := false } s rfl rfl).trans hm
        | error e => exact mirrors_append_error s _ hm
      · rw [if_neg hin]
        exact hm
    | tick e =>
      show mirrors (check_mpv_status s e) = true
      unfold check_mpv_status
      cases hp : s.mpv_process with
      | none => exact hm
      | some h =>
        cases e with
        | false => exact hm
        | true =>
          exact (mirrors_fields
            { s with mpv_process := none, windowVisible := true, windowActive := true }
            s rfl rfl).trans hm
  · intro he
    have hlen := mirrors_length_le s hm
    have hout : s.video_data.length ≤ pos := by
      by_contra hlt
      push_neg at hlt
      have hpos : pos < s.results_list.length := lt_of_lt_of_le hlt hlen
      unfold mirrors at hm
      simp only [Bool.and_eq_true, decide_eq_true_eq] at hm
      have h1 := hm.1
      have hq : s.results_list[pos]? =
          some (renderEntry (s.video_data.get (Fin.mk pos hlt))) := by
        have ht : (s.results_list.take s.video_data.length)[pos]? =
            s.results_list[pos]? := by
          rw [List.getElem?_take, if_pos hlt]
        rw [← ht, h1, List.getElem?_map, List.getElem?_eq_getElem hlt]
        rfl
      rw [List.getD_eq_getElem?_getD, hq] at he
      simp [renderEntry, Entry.isError] at he
    apply C7_out_of_bounds
    right
    omega

/-- A state with one stored record, its rendered row, and one trailing
error row. -/
def c10State : AppState :=
  { initState with
      results_list := [Entry.videoRow "Lofi Beats" "Chill Records" "1.2M views"
        "May 03, 2021" "high.jpg", Entry.errorRow "Error: boom"],
      video_data := [lofiRecord] }

/-- Witness for C10 on a concrete mirroring state: a tick preserves the
invariant and activating the trailing error row is a no-op. -/
theorem C10_mirror_invariant_witness :
    mirrors (step c10State (Op.tick true)) = true ∧
    open_video c10State ((1 : Nat) : Int) (Except.ok 0) = (c10State, none) :=
  ⟨(C10_mirror_invariant c10State (Op.tick true) 1 (Except.ok 0) (by decide)).1,
   (C10_mirror_invariant c10State (Op.tick true) 1 (Except.ok 0) (by decide)).2
     (by decide)⟩

/-- The ASCII digit character of a value below ten. -/
def digitChar (n : Nat) : Char :=
  if n = 0 then '0' else if n = 1 then '1' else if n = 2 then '2'
  else if n = 3 then '3' else if n = 4 then '4' else if n = 5 then '5'
  else if n = 6 then '6' else if n = 7 then '7' else if n = 8 then '8' else '9'

/-- The canonical zero-padded YYYY-MM-DD rendering of a date triple: the
exact shape of the fixed pattern of the claim. -/
def mkDateString (y m d : Nat) : String :=
  String.mk [digitChar (y / 1000 % 10), digitChar (y / 100 % 10),
    digitChar (y / 10 % 10), digitChar (y % 10), '-', digitChar (m / 10),
    digitChar (m % 10), '-', digitChar (d / 10), digitChar (d % 10)]

/-- digitChar lands in the digit class. -/
theorem isDigit_digitChar (n : Nat) (h : n ≤ 9) : isDigitCode (digitChar n) = true := by
  interval_cases n <;> decide

/-- digitVal inverts digitChar below ten. -/
theorem digitVal_digitChar (n : Nat) (h : n ≤ 9) : digitVal (digitChar n) = n := by
  interval_cases n <;> decide

/-- The month class matches a zero-padded valid month first, with value m. -/
theorem monthAlts_pad (m : Nat) (h1 : 1 ≤ m) (h2 : m ≤ 12) (rest : List Char) :
    ∃ tail, monthAlts (digitChar (m / 10) :: digitChar (m % 10) :: rest) =
      (m, rest) :: tail := by
  interval_cases m <;> exact ⟨_, rfl⟩

/-- The day class matches a zero-padded valid day first, with value d. -/
theorem dayAlts_pad (d : Nat) (h1 : 1 ≤ d) (h2 : d ≤ 31) :
    (dayAlts [digitChar (d / 10), digitChar (d % 10)]).head? = some (d, []) := by
  interval_cases d <;> rfl

/-- The %m-%d fragment matches the zero-padded tail completely. -/
theorem matchMD_pad (m d : Nat) (hm1 : 1 ≤ m) (hm2 : m ≤ 12)
    (hd1 : 1 ≤ d) (hd2 : d ≤ 31) :
    matchMD [digitChar (m / 10), digitChar (m % 10), '-',
      digitChar (d / 10), digitChar (d % 10)] = some (m, d, []) := by
  obtain ⟨tail, ht⟩ :=
    monthAlts_pad m hm1 hm2 ['-', digitChar (d / 10), digitChar (d % 10)]
  unfold matchMD
  rw [ht, List.findSome?_cons]
  simp [dayAlts_pad d hd1 hd2]

/-- No month has more than 31 days. -/
theorem daysInMonth_le (y m : Nat) : daysInMonth y m ≤ 31 := by
  unfold daysInMonth
  split_ifs <;> omega

/-- strptime accepts the canonical zero-padded rendering of a valid date
and returns its fields. -/
theorem strptime_mkDateString (y m d : Nat) (h : validDate y m d = true) :
    strptimeYmd (mkDateString y m d) = some (y, m, d) := by
  have hb : (1 ≤ y ∧ y ≤ 9999) ∧ (1 ≤ m ∧ m ≤ 12) ∧ 1 ≤ d ∧ d ≤ daysInMonth y m := by
    unfold validDate at h
    simp only [Bool.and_eq_true, decide_eq_true_eq] at h
    tauto
  obtain ⟨⟨hy1, hy2⟩, ⟨hm1, hm2⟩, hd1, hdm⟩ := hb
  have hd31 : d ≤ 31 := le_trans hdm (daysInMonth_le y m)
  have hdata : (mkDateString y m d).data =
      [digitChar (y / 1000 % 10), digitChar (y / 100 % 10), digitChar (y / 10 % 10),
       digitChar (y % 10), '-', digitChar (m / 10), digitChar (m % 10), '-',
       digitChar (d / 10), digitChar (d % 10)] := rfl
  have hc1 := isDigit_digitChar (y / 1000 % 10) (by omega)
  have hc2 := isDigit_digitChar (y / 100 % 10) (by omega)
  have hc3 := isDigit_digitChar (y / 10 % 10) (by omega)
  have hc4 := isDigit_digitChar (y % 10) (by omega)
  have hys : 1000 * digitVal (digitChar (y / 1000 % 10)) +
      100 * digitVal (digitChar (y / 100 % 10)) +
      10 * digitVal (digitChar (y / 10 % 10)) + digitVal (digitChar (y % 10)) = y := by
    rw [digitVal_digitChar _ (by omega), digitVal_digitChar _ (by omega),
      digitVal_digitChar _ (by omega), digitVal_digitChar _ (by omega)]
    omega
  simp only [strptimeYmd, hdata]
  rw [matchMD_pad m d hm1 hm2 hd1 hd31]
  simp only [hc1, hc2, hc3, hc4, Bool.true_and, Bool.and_true]
  rw [if_pos (by rfl)]
  rw [hys]
  rw [if_pos h]

/-- Counterexample to C4: "2021-02-31" matches the fixed YYYY-MM-DD pattern
(4-digit year, 2-digit month, 2-digit day, hyphen-separated) yet format_date
returns it unchanged — the parse rejects the invalid calendar date — and
"2021-5-3" does not match that pattern yet format_date reformats it instead
of acting as the identity, because strptime also accepts one-digit months
and days. -/
theorem C4_counterexample :
    (format_date "2021-02-31" = "2021-02-31") ∧
    (format_date "2021-5-3" = "May 03, 2021" ∧ "2021-5-3" ≠ "May 03, 2021") := by
  exact ⟨rfl, rfl, by decide⟩

/-- C4 as amended: every YYYY-MM-DD string naming a valid calendar date is
rendered as abbreviated-month/day/year; format_date is the identity exactly
on the strings the %Y-%m-%d parse rejects — which include pattern-matching
strings naming invalid dates — while every string the parse accepts (the
parse also admits one-digit months and days) is rendered deterministically
from its fields. -/
theorem C4_date_formatting (s : String) (y m d : Nat) :
    (validDate y m d = true → format_date (mkDateString y m d) = renderDate y m d) ∧
    (strptimeYmd s = some (y, m, d) → format_date s = renderDate y m d) ∧
    (strptimeYmd s = none → format_date s = s) := by
  refine ⟨fun h => ?_, fun h => ?_, fun h => ?_⟩
  · unfold format_date
    rw [strptime_mkDateString y m d h]
  · unfold format_date
    rw [h]
  · unfold format_date
    rw [h]

/-- Witness for the amended C4 on concrete dates and strings. -/
theorem C4_date_formatting_witness :
    format_date (mkDateString 2021 5 3) = renderDate 2021 5 3 ∧
    format_date "2021-12-31" = renderDate 2021 12 31 ∧
    format_date "hello" = "hello" :=
  ⟨(C4_date_formatting "" 2021 5 3).1 (by decide),
   (C4_date_formatting "2021-12-31" 2021 12 31).2.1 (by decide),
   (C4_date_formatting "hello" 0 0 0).2.2 (by decide)⟩
